import Mathlib

/-!
Shallow embedding of `src/crawlee/configuration.py`: the `Configuration`
settings class (field/alias declarations, defaults, coercions) and the
`get_global_configuration` accessor, together with proofs about them.
-/

namespace Crawlee

/-- A duration value, stored as a count of milliseconds (embedding of
the Python `datetime.timedelta` type, which has microsecond resolution; all values
arising here are whole milliseconds). -/
structure TimeDelta where
  ms : Int
deriving DecidableEq

/-- A duration of `n` whole seconds. -/
def TimeDelta.ofSeconds (n : Int) : TimeDelta := { ms := n * 1000 }

/-- The five admissible values of the `log_level` field
(the `Literal` type listing DEBUG, INFO, WARNING, ERROR, CRITICAL). -/
inductive LogLevel
  | DEBUG
  | INFO
  | WARNING
  | ERROR
  | CRITICAL
deriving DecidableEq

/-- The canonical member name of a log level, as written in the `Literal` type. -/
def levelName : LogLevel → String
  | LogLevel.DEBUG => "DEBUG"
  | LogLevel.INFO => "INFO"
  | LogLevel.WARNING => "WARNING"
  | LogLevel.ERROR => "ERROR"
  | LogLevel.CRITICAL => "CRITICAL"

/-- Errors surfaced while constructing a `Configuration`. The spec labels the
coercion failure `TypeCoercionError` and the enum failure `InvalidEnumValueError`;
in the source both surface as the validation error raised during construction,
carrying the field name and the offending raw value. -/
inductive ConfigError
  | coercion (field : String) (raw : String)
  | invalidEnum (field : String) (raw : String)
deriving DecidableEq

/-- The resolved configuration: one typed value per declared field of the
`Configuration` class, in source declaration order. -/
structure Configuration where
  internal_timeout : Option TimeDelta
  verbose_log : Bool
  default_browser_path : Option String
  disable_browser_sandbox : Bool
  log_level : LogLevel
  default_dataset_id : String
  default_key_value_store_id : String
  default_request_queue_id : String
  purge_on_start : Bool
  write_metadata : Bool
  persist_storage : Bool
  persist_state_interval : TimeDelta
  system_info_interval : TimeDelta
  max_used_cpu_ratio : Rat
  memory_mbytes : Option Int
  available_memory_ratio : Rat
  storage_dir : String
  chrome_executable_path : Option String
  headless : Bool
  xvfb : Bool
deriving DecidableEq

/-- Look a key up in the input mapping (environment variables or explicit
constructor input); first binding wins. -/
def envLookup (env : List (String × String)) (key : String) : Option String :=
  match env with
  | [] => none
  | (k, v) :: rest => if k = key then some v else envLookup rest key

/-- Scan the source names of a field in declared precedence order and return the
value of the first one present in the input (the `AliasChoices` semantics:
earliest declared alias wins). -/
def resolveField (sources : List String) (env : List (String × String)) :
    Option String :=
  match sources with
  | [] => none
  | s :: rest =>
    match envLookup env s with
    | some v => some v
    | none => resolveField rest env

/-- Resolve one field: take the raw value of the first-precedence present source name and coerce it, or fall back to the declared default when no source
name is present. -/
def resolveTyped {α : Type} (sources : List String)
    (parse : String → Except ConfigError α) (dflt : α)
    (env : List (String × String)) : Except ConfigError α :=
  match resolveField sources env with
  | none => Except.ok dflt
  | some raw => parse raw

/-- Character-wise upper-casing of a string (the Python `str.upper` method on the
ASCII names involved here). -/
def strUpper (s : String) : String := String.mk (s.data.map Char.toUpper)

/-- Character-wise lower-casing of a string (the Python `str.lower` method). -/
def strLower (s : String) : String := String.mk (s.data.map Char.toLower)

/-- Numeric value of a decimal digit character. -/
def digitVal (c : Char) : Option Nat :=
  if c.isDigit then some (c.toNat - 48) else none

/-- Accumulate a decimal digit string into a natural number; any
non-digit character fails. -/
def parseNatAux : List Char → Nat → Option Nat
  | [], acc => some acc
  | c :: cs, acc =>
    match digitVal c with
    | some d => parseNatAux cs (acc * 10 + d)
    | none => none

/-- Parse a non-empty string of decimal digits as a natural number. -/
def parseNatStr (s : String) : Option Nat :=
  if s.isEmpty then none else parseNatAux s.data 0

/-- Parse an optionally `-`-signed decimal integer string. -/
def parseIntStr (s : String) : Option Int :=
  match s.data with
  | '-' :: rest =>
    if rest.isEmpty then none
    else (parseNatAux rest 0).map (fun n => -(n : Int))
  | _ => (parseNatStr s).map (fun n => (n : Int))

/-- Modelled from the spec: the numeric parse of a raw float string
(`integer / float: numeric parse; fails on non-numeric text`); the coercion
itself is performed by the pydantic library, which is not part of the
sources of this repository. A decimal numeral with an optional fractional part. -/
def parseRatStr (s : String) : Option Rat :=
  match s.splitOn "." with
  | [a] => (parseIntStr a).map (fun n => (n : Rat))
  | [a, b] =>
    match parseIntStr a, parseNatStr b with
    | some n, some f =>
      let frac : Rat := (f : Rat) / ((10 ^ b.length : Nat) : Rat)
      some (if n < 0 then (n : Rat) - frac else (n : Rat) + frac)
    | _, _ => none
  | _ => none

/-- Modelled from the spec: `boolean: case-insensitive truthy/falsy string
parsing; fails on unrecognized tokens` — the pydantic bool coercion, not part
of the sources of this repository. -/
def parse_bool (field raw : String) : Except ConfigError Bool :=
  let l := strLower raw
  if l = "true" ∨ l = "1" ∨ l = "yes" ∨ l = "on" ∨ l = "y" ∨ l = "t" then
    Except.ok true
  else if l = "false" ∨ l = "0" ∨ l = "no" ∨ l = "off" ∨ l = "n" ∨ l = "f" then
    Except.ok false
  else Except.error (ConfigError.coercion field raw)

/-- Modelled from the spec: the integer coercion (`integer / float: numeric
parse; fails with TypeCoercionError on non-numeric text`), performed by the
pydantic library, which is not part of the sources of this repository. -/
def parse_int (field raw : String) : Except ConfigError Int :=
  match parseIntStr raw with
  | some n => Except.ok n
  | none => Except.error (ConfigError.coercion field raw)

/-- Float coercion: numeric parse, failing on non-numeric text. -/
def parse_float (field raw : String) : Except ConfigError Rat :=
  match parseRatStr raw with
  | some q => Except.ok q
  | none => Except.error (ConfigError.coercion field raw)

/-- Plain string fields take the raw value as-is. -/
def parse_str (raw : String) : Except ConfigError String :=
  Except.ok raw

/-- The `log_level` coercion: the declared
`BeforeValidator(lambda value: str(value).upper())` upper-cases the raw value
before it is validated against the `Literal` member set. -/
def parse_log_level (raw : String) : Except ConfigError LogLevel :=
  let v := strUpper raw
  if v = "DEBUG" then Except.ok LogLevel.DEBUG
  else if v = "INFO" then Except.ok LogLevel.INFO
  else if v = "WARNING" then Except.ok LogLevel.WARNING
  else if v = "ERROR" then Except.ok LogLevel.ERROR
  else if v = "CRITICAL" then Except.ok LogLevel.CRITICAL
  else Except.error (ConfigError.invalidEnum "log_level" raw)

/-- Modelled from the spec: the `timedelta_ms` annotated type from
`crawlee._utils.models` (not present under the given sources) — `a
duration-typed field has raw input always interpreted as an integer count of
milliseconds and converted to a duration value`. -/
def parse_timedelta_ms (field raw : String) : Except ConfigError TimeDelta :=
  match parseIntStr raw with
  | some n => Except.ok { ms := n }
  | none => Except.error (ConfigError.coercion field raw)

/-- Modelled from the spec: a plain `timedelta` field takes raw input
`parsed as integer/float seconds ... used directly` (the pydantic timedelta
coercion, not part of the sources of this repository); whole seconds suffice here. -/
def parse_timedelta_s (field raw : String) : Except ConfigError TimeDelta :=
  match parseIntStr raw with
  | some n => Except.ok (TimeDelta.ofSeconds n)
  | none => Except.error (ConfigError.coercion field raw)

/-- Lift a parser of `α` to a parser of `Option α` for optional fields. -/
def parse_opt {α : Type} (p : String → Except ConfigError α)
    (raw : String) : Except ConfigError (Option α) :=
  (p raw).map some

/-- Construct a `Configuration` from an input mapping, field by field in
source declaration order. The source-name list of each field is the declared
`AliasChoices` (or single `alias`) in precedence order, followed by the
canonical field name — the `model_config = SettingsConfigDict
(populate_by_name=True)` setting, which lets constructor input be keyed by
the canonical field name as well. Construction fails atomically with the
first field whose winning raw value cannot be coerced. -/
def build_configuration (env : List (String × String)) :
    Except ConfigError Configuration := do
  let internal_timeout ← resolveTyped
    ["crawlee_internal_timeout", "internal_timeout"]
    (parse_opt (parse_timedelta_s "internal_timeout")) none env
  let verbose_log ← resolveTyped
    ["crawlee_verbose_log", "verbose_log"]
    (parse_bool "verbose_log") false env
  let default_browser_path ← resolveTyped
    ["apify_default_browser_path", "crawlee_default_browser_path",
     "default_browser_path"]
    (parse_opt parse_str) none env
  let disable_browser_sandbox ← resolveTyped
    ["apify_disable_browser_sandbox", "crawlee_disable_browser_sandbox",
     "disable_browser_sandbox"]
    (parse_bool "disable_browser_sandbox") false env
  let log_level ← resolveTyped
    ["apify_log_level", "crawlee_log_level", "log_level"]
    parse_log_level LogLevel.INFO env
  let default_dataset_id ← resolveTyped
    ["actor_default_dataset_id", "apify_default_dataset_id",
     "crawlee_default_dataset_id", "default_dataset_id"]
    parse_str "default" env
  let default_key_value_store_id ← resolveTyped
    ["actor_default_key_value_store_id", "apify_default_key_value_store_id",
     "crawlee_default_key_value_store_id", "default_key_value_store_id"]
    parse_str "default" env
  let default_request_queue_id ← resolveTyped
    ["actor_default_request_queue_id", "apify_default_request_queue_id",
     "crawlee_default_request_queue_id", "default_request_queue_id"]
    parse_str "default" env
  let purge_on_start ← resolveTyped
    ["apify_purge_on_start", "crawlee_purge_on_start", "purge_on_start"]
    (parse_bool "purge_on_start") true env
  let write_metadata ← resolveTyped
    ["crawlee_write_metadata", "write_metadata"]
    (parse_bool "write_metadata") true env
  let persist_storage ← resolveTyped
    ["apify_persist_storage", "crawlee_persist_storage", "persist_storage"]
    (parse_bool "persist_storage") true env
  let persist_state_interval ← resolveTyped
    ["apify_persist_state_interval_millis",
     "crawlee_persist_state_interval_millis", "persist_state_interval"]
    (parse_timedelta_ms "persist_state_interval") { ms := 60000 } env
  let system_info_interval ← resolveTyped
    ["apify_system_info_interval_millis",
     "crawlee_system_info_interval_millis", "system_info_interval"]
    (parse_timedelta_ms "system_info_interval") { ms := 1000 } env
  let max_used_cpu_ratio ← resolveTyped
    ["apify_max_used_cpu_ratio", "crawlee_max_used_cpu_ratio",
     "max_used_cpu_ratio"]
    (parse_float "max_used_cpu_ratio") ((95 : Rat) / 100) env
  let memory_mbytes ← resolveTyped
    ["actor_memory_mbytes", "apify_memory_mbytes", "crawlee_memory_mbytes",
     "memory_mbytes"]
    (parse_opt (parse_int "memory_mbytes")) none env
  let available_memory_ratio ← resolveTyped
    ["apify_available_memory_ratio", "crawlee_available_memory_ratio",
     "available_memory_ratio"]
    (parse_float "available_memory_ratio") ((25 : Rat) / 100) env
  let storage_dir ← resolveTyped
    ["apify_local_storage_dir", "crawlee_storage_dir", "storage_dir"]
    parse_str "./storage" env
  let chrome_executable_path ← resolveTyped
    ["apify_chrome_executable_path", "crawlee_chrome_executable_path",
     "chrome_executable_path"]
    (parse_opt parse_str) none env
  let headless ← resolveTyped
    ["apify_headless", "crawlee_headless", "headless"]
    (parse_bool "headless") true env
  let xvfb ← resolveTyped
    ["apify_xvfb", "crawlee_xvfb", "xvfb"]
    (parse_bool "xvfb") false env
  pure {
    internal_timeout := internal_timeout
    verbose_log := verbose_log
    default_browser_path := default_browser_path
    disable_browser_sandbox := disable_browser_sandbox
    log_level := log_level
    default_dataset_id := default_dataset_id
    default_key_value_store_id := default_key_value_store_id
    default_request_queue_id := default_request_queue_id
    purge_on_start := purge_on_start
    write_metadata := write_metadata
    persist_storage := persist_storage
    persist_state_interval := persist_state_interval
    system_info_interval := system_info_interval
    max_used_cpu_ratio := max_used_cpu_ratio
    memory_mbytes := memory_mbytes
    available_memory_ratio := available_memory_ratio
    storage_dir := storage_dir
    chrome_executable_path := chrome_executable_path
    headless := headless
    xvfb := xvfb
  }

/-! ## Global accessor

`Configuration.get_global_configuration` consults the `crawlee.service_container`
module for the stored global instance. That module is not among the given
sources, so its store is modelled from the spec: a process-wide handle holding
at most one instance (`absent at process start → created by the first call …
→ persists`), threaded through explicitly as an `Option Inst`. -/

/-- A Python class in the small class hierarchy relevant to the accessor:
the `Configuration` class itself and two distinct strict subclasses of it. -/
inductive ConfigClass
  | configuration
  | customA
  | customB
deriving DecidableEq

/-- The Python `isinstance` check on this hierarchy: `isSubclassOf c d` holds when an
object of class `c` is an instance of class `d`. Every class is an instance
of itself and of `configuration`; the two custom subclasses are unrelated. -/
def isSubclassOf : ConfigClass → ConfigClass → Bool
  | _, ConfigClass.configuration => true
  | ConfigClass.customA, ConfigClass.customA => true
  | ConfigClass.customB, ConfigClass.customB => true
  | _, _ => false

/-- A constructed configuration object: its runtime class, plus an object
identity (distinct constructions get distinct `objId`s), so that "same
instance" means identity and not mere value equality. -/
structure Inst where
  cls : ConfigClass
  objId : Nat
deriving DecidableEq

/-- The failure raised by the accessor: the source raises
a `TypeError` with the message `Requested global configuration object of
type ..., but ... was found` — what the spec labels
`ConfigurationTypeMismatchError` — carrying both the requested and the
actual stored class. -/
inductive AccessError
  | typeMismatch (requested : ConfigClass) (actual : ConfigClass)
deriving DecidableEq

/-- `Configuration.get_global_configuration`, called on class `cls` with the
service container holding `stored`: if nothing is stored, construct a fresh
instance of `cls` (object identity `freshId`) and store it; then fetch the
stored instance and, unless it is an `isinstance` of `cls`, raise the
type-mismatch error. Returns the outcome of the call and the container state after
the call. -/
def get_global_configuration (cls : ConfigClass) (stored : Option Inst)
    (freshId : Nat) : Except AccessError Inst × Option Inst :=
  match stored with
  | none =>
    let g : Inst := { cls := cls, objId := freshId }
    if isSubclassOf (Inst.cls g) cls then (Except.ok g, some g)
    else (Except.error (AccessError.typeMismatch cls (Inst.cls g)), some g)
  | some g =>
    if isSubclassOf (Inst.cls g) cls then (Except.ok g, some g)
    else (Except.error (AccessError.typeMismatch cls (Inst.cls g)), some g)

/-! ## Interleaved first-time access

The accessor body is a check (`get_configuration_if_set() is None`) followed
by a separate construct-and-store (`set_configuration(cls())`) and a read
(`get_configuration()`), with no lock between them. To examine concurrent
first-time access, the three actions are modelled as atomic steps of two
threads over the shared store, and schedules as interleavings of the steps. -/

/-- Joint state of the shared service container and two threads, each
running `get_global_configuration` on the base class: per thread a program
counter, the result of its check step, and its returned instance;
`constructed` counts how many instances have been constructed. -/
structure Sys where
  stored : Option Inst
  pc1 : Nat
  saw1 : Bool
  res1 : Option Inst
  pc2 : Nat
  saw2 : Bool
  res2 : Option Inst
  constructed : Nat
deriving DecidableEq

/-- One atomic step of thread 1: pc 0 checks whether the store is unset;
pc 1 constructs and stores a fresh instance when the check saw it unset;
pc 2 reads the store and returns the instance (the `isinstance` check
against `configuration` always passes here). -/
def threadStep1 (s : Sys) : Sys :=
  if s.pc1 = 0 then { s with saw1 := s.stored.isNone, pc1 := 1 }
  else if s.pc1 = 1 then
    if s.saw1 then
      { s with stored := some { cls := ConfigClass.configuration, objId := 1 },
               constructed := s.constructed + 1, pc1 := 2 }
    else { s with pc1 := 2 }
  else if s.pc1 = 2 then
    { s with
      res1 := match s.stored with
        | some g =>
          if isSubclassOf (Inst.cls g) ConfigClass.configuration then some g
          else none
        | none => none,
      pc1 := 3 }
  else s

/-- One atomic step of thread 2, symmetric to `threadStep1` (a fresh
construction by thread 2 has object identity 2). -/
def threadStep2 (s : Sys) : Sys :=
  if s.pc2 = 0 then { s with saw2 := s.stored.isNone, pc2 := 1 }
  else if s.pc2 = 1 then
    if s.saw2 then
      { s with stored := some { cls := ConfigClass.configuration, objId := 2 },
               constructed := s.constructed + 1, pc2 := 2 }
    else { s with pc2 := 2 }
  else if s.pc2 = 2 then
    { s with
      res2 := match s.stored with
        | some g =>
          if isSubclassOf (Inst.cls g) ConfigClass.configuration then some g
          else none
        | none => none,
      pc2 := 3 }
  else s

/-- Run a schedule: `true` entries step thread 1, `false` entries thread 2. -/
def runSchedule (sched : List Bool) (s : Sys) : Sys :=
  match sched with
  | [] => s
  | t :: rest => runSchedule rest (if t then threadStep1 s else threadStep2 s)

/-- Process start: store unset, both threads at their first action. -/
def initSys : Sys :=
  { stored := none, pc1 := 0, saw1 := false, res1 := none,
    pc2 := 0, saw2 := false, res2 := none, constructed := 0 }

/-- An interleaved schedule: both threads pass their check before either
constructs. -/
def raceSchedule : List Bool := [true, false, true, true, false, false]

/-- A serialized schedule: thread 1 completes all three actions before
thread 2 starts. -/
def seqSchedule : List Bool := [true, true, true, false, false, false]

/-! ## Helper lemmas -/

/-- Every class is an instance of itself. -/
theorem isSubclassOf_refl (c : ConfigClass) : isSubclassOf c c = true := by
  cases c <;> rfl

/-- Appending the canonical name to the alias list reaches it whenever no
alias is present. -/
theorem resolveField_append_last (sources : List String) (n : String)
    (env : List (String × String)) (v : String)
    (ha : ∀ a ∈ sources, envLookup env a = none)
    (hn : envLookup env n = some v) :
    resolveField (sources ++ [n]) env = some v := by
  induction sources with
  | nil => simp [resolveField, hn]
  | cons s rest ih =>
    have hs : envLookup env s = none := ha s (by simp)
    simp only [List.cons_append, resolveField, hs]
    exact ih (fun a haa => ha a (by simp [haa]))

/-! ## Claims -/

/-- C1: for every configuration field declared with two or more source names,
if the input mapping contains the first-precedence source name, the field
resolves to the value of that source, even when later-precedence source names
are simultaneously present with different values — stated generally for the
resolution of any source-name list, and instantiated on full construction for
the two cited fields, `default_dataset_id` (all three of its source names
present with distinct values) and `storage_dir` (both of its source names
present with distinct values). -/
theorem first_precedence_source_wins :
    (∀ (first : String) (rest : List String) (env : List (String × String))
       (v : String), envLookup env first = some v →
       resolveField (first :: rest) env = some v)
    ∧ (build_configuration [("actor_default_dataset_id", "A"),
        ("apify_default_dataset_id", "B"),
        ("crawlee_default_dataset_id", "C")]).map
        Configuration.default_dataset_id = Except.ok "A"
    ∧ (build_configuration [("apify_local_storage_dir", "P"),
        ("crawlee_storage_dir", "Q")]).map
        Configuration.storage_dir = Except.ok "P" := by
  refine ⟨?_, rfl, rfl⟩
  intro first rest env v h
  simp [resolveField, h]

/-- Witness for C1 at a concrete input: with two sources both present, the
first one wins. -/
theorem first_precedence_source_wins_witness :
    resolveField ["a", "b"] [("a", "x"), ("b", "y")] = some "x" :=
  first_precedence_source_wins.1 "a" ["b"] [("a", "x"), ("b", "y")] "x" rfl

/-- C2: constructing a `Configuration` from an input mapping containing none
of any source names yields exactly the declared default for every field
(`log_level = INFO`, `purge_on_start = true`, `persist_state_interval =
60000 ms`, `storage_dir = "./storage"`, `memory_mbytes` absent, and so on);
the resulting record is total, so every field has a value after
construction. -/
theorem defaults_when_no_source_names :
    build_configuration [] = Except.ok {
      internal_timeout := none
      verbose_log := false
      default_browser_path := none
      disable_browser_sandbox := false
      log_level := LogLevel.INFO
      default_dataset_id := "default"
      default_key_value_store_id := "default"
      default_request_queue_id := "default"
      purge_on_start := true
      write_metadata := true
      persist_storage := true
      persist_state_interval := { ms := 60000 }
      system_info_interval := { ms := 1000 }
      max_used_cpu_ratio := (95 : Rat) / 100
      memory_mbytes := none
      available_memory_ratio := (25 : Rat) / 100
      storage_dir := "./storage"
      chrome_executable_path := none
      headless := true
      xvfb := false } := rfl

/-- C3: when `get_global_configuration` is called on a requested class and
the stored global instance is not an instance of that class, the call fails
with the type-mismatch error carrying both the requested class and the
actual stored class, and does not return the incompatible object. -/
theorem global_type_mismatch_error (cls : ConfigClass) (g : Inst) (f : Nat)
    (h : isSubclassOf (Inst.cls g) cls = false) :
    get_global_configuration cls (some g) f =
      (Except.error (AccessError.typeMismatch cls (Inst.cls g)), some g) := by
  simp [get_global_configuration, h]

/-- Witness for C3: a stored base-class instance requested as `customA`
raises the mismatch error naming both classes. -/
theorem global_type_mismatch_error_witness :
    get_global_configuration ConfigClass.customA
      (some { cls := ConfigClass.configuration, objId := 0 }) 5 =
      (Except.error (AccessError.typeMismatch ConfigClass.customA
        ConfigClass.configuration),
       some { cls := ConfigClass.configuration, objId := 0 }) :=
  global_type_mismatch_error ConfigClass.customA
    { cls := ConfigClass.configuration, objId := 0 } 5 rfl

/-- C4: two sequential calls to `get_global_configuration` with no reset in
between return the identical instance — the same object identity, not merely
equal values — and the second call leaves the store unchanged, so automatic
construction happens at most once: whatever the starting store, if the first
call returns an instance, the second call returns that very instance and the
fresh identity offered to it is never used. -/
theorem global_accessor_returns_identical_instance (cls : ConfigClass)
    (st₀ st₁ : Option Inst) (f₁ f₂ : Nat) (g : Inst)
    (h : get_global_configuration cls st₀ f₁ = (Except.ok g, st₁)) :
    get_global_configuration cls st₁ f₂ = (Except.ok g, st₁) := by
  cases st₀ with
  | none =>
    simp [get_global_configuration, isSubclassOf_refl, Prod.ext_iff] at h
    obtain ⟨hg, hst⟩ := h
    subst hg
    subst hst
    simp [get_global_configuration, isSubclassOf_refl]
  | some g₀ =>
    by_cases hc : isSubclassOf (Inst.cls g₀) cls = true
    · simp [get_global_configuration, hc, Prod.ext_iff] at h
      obtain ⟨hg, hst⟩ := h
      subst hg
      subst hst
      simp [get_global_configuration, hc]
    · simp [get_global_configuration, hc] at h

/-- Witness for C4: after a first call constructs instance 7, a second call
with a different fresh identity 9 returns instance 7 and changes nothing. -/
theorem global_accessor_returns_identical_instance_witness :
    get_global_configuration ConfigClass.configuration
      (some { cls := ConfigClass.configuration, objId := 7 }) 9 =
      (Except.ok { cls := ConfigClass.configuration, objId := 7 },
       some { cls := ConfigClass.configuration, objId := 7 }) :=
  global_accessor_returns_identical_instance ConfigClass.configuration
    none (some { cls := ConfigClass.configuration, objId := 7 }) 7 9
    { cls := ConfigClass.configuration, objId := 7 } rfl

/-- C5: the constructor accepts, for every field, input keyed by the
canonical field name in addition to input keyed by the environment-alias
source names (the `populate_by_name=True` setting) — stated generally: when
no alias is present, a binding of the canonical name populates the field;
and instantiated on full construction for `default_dataset_id` and
`storage_dir` through both input paths of the same constructor. -/
theorem canonical_field_names_accepted :
    (∀ (sources : List String) (n : String) (env : List (String × String))
       (v : String), (∀ a ∈ sources, envLookup env a = none) →
       envLookup env n = some v →
       resolveField (sources ++ [n]) env = some v)
    ∧ (build_configuration [("default_dataset_id", "X")]).map
        Configuration.default_dataset_id = Except.ok "X"
    ∧ (build_configuration [("crawlee_default_dataset_id", "Y")]).map
        Configuration.default_dataset_id = Except.ok "Y"
    ∧ (build_configuration [("storage_dir", "S")]).map
        Configuration.storage_dir = Except.ok "S"
    ∧ (build_configuration [("internal_timeout", "5")]).map
        Configuration.internal_timeout = Except.ok (some { ms := 5000 }) := by
  exact ⟨resolveField_append_last, rfl, rfl, rfl, rfl⟩

/-- Witness for C5 at a concrete input: the canonical name at the end of the
search list is reached when no alias is bound. -/
theorem canonical_field_names_accepted_witness :
    resolveField (["a"] ++ ["n"]) [("n", "v")] = some "v" :=
  canonical_field_names_accepted.1 ["a"] "n" [("n", "v")] "v" (by decide) rfl

/-- C6: the `log_level` field upper-cases its raw input before validating
membership — any casing of a member name resolves to that member (stated
generally over `parse_log_level`, the coercion used by construction), and
concretely `"debug"`, `"Debug"` and `"DEBUG"` all resolve the field to
`DEBUG` through full construction. -/
theorem log_level_case_normalization :
    (∀ (l : LogLevel) (s : String), strUpper s = levelName l →
       parse_log_level s = Except.ok l)
    ∧ (build_configuration [("crawlee_log_level", "debug")]).map
        Configuration.log_level = Except.ok LogLevel.DEBUG
    ∧ (build_configuration [("crawlee_log_level", "Debug")]).map
        Configuration.log_level = Except.ok LogLevel.DEBUG
    ∧ (build_configuration [("crawlee_log_level", "DEBUG")]).map
        Configuration.log_level = Except.ok LogLevel.DEBUG := by
  refine ⟨?_, rfl, rfl, rfl⟩
  intro l s h
  cases l <;> simp [parse_log_level, levelName] at h ⊢ <;> simp [h]

/-- Witness for C6: mixed-case `"warning"` parses to `WARNING`. -/
theorem log_level_case_normalization_witness :
    parse_log_level "warning" = Except.ok LogLevel.WARNING :=
  log_level_case_normalization.1 LogLevel.WARNING "warning" rfl

/-- C7: the duration-ms fields interpret raw input as an integer count of
milliseconds (stated generally over `parse_timedelta_ms`, the coercion both
fields use), and through full construction `persist_state_interval` given
raw `5000` resolves to exactly 5 seconds, given raw `0` to the zero
duration, and `system_info_interval` applies the same millisecond
interpretation. -/
theorem duration_ms_interpretation :
    (∀ (field s : String) (n : Int), parseIntStr s = some n →
       parse_timedelta_ms field s = Except.ok { ms := n })
    ∧ (build_configuration
        [("crawlee_persist_state_interval_millis", "5000")]).map
        Configuration.persist_state_interval =
        Except.ok (TimeDelta.ofSeconds 5)
    ∧ (build_configuration
        [("crawlee_persist_state_interval_millis", "0")]).map
        Configuration.persist_state_interval = Except.ok { ms := 0 }
    ∧ (build_configuration
        [("crawlee_system_info_interval_millis", "2500")]).map
        Configuration.system_info_interval = Except.ok { ms := 2500 } := by
  refine ⟨?_, rfl, rfl, rfl⟩
  intro field s n h
  simp [parse_timedelta_ms, h]

/-- Witness for C7: raw `"250"` becomes a 250 ms duration. -/
theorem duration_ms_interpretation_witness :
    parse_timedelta_ms "persist_state_interval" "250" =
      Except.ok { ms := 250 } :=
  duration_ms_interpretation.1 "persist_state_interval" "250" 250 rfl

/-- C8: constructing a `Configuration` with `memory_mbytes` set to a
non-numeric string through any of its three source names fails with the
coercion error naming the `memory_mbytes` field and the offending raw value;
the result is an error and not a configuration, so no partially-populated
instance is returned. -/
theorem memory_mbytes_non_numeric_error :
    build_configuration [("crawlee_memory_mbytes", "not-a-number")] =
      Except.error (ConfigError.coercion "memory_mbytes" "not-a-number")
    ∧ build_configuration [("apify_memory_mbytes", "abc")] =
      Except.error (ConfigError.coercion "memory_mbytes" "abc")
    ∧ build_configuration [("actor_memory_mbytes", "12x")] =
      Except.error (ConfigError.coercion "memory_mbytes" "12x") :=
  ⟨rfl, rfl, rfl⟩

/-- C9 counterexample: under the unguarded check-then-act of the accessor,
the interleaving in which both threads pass their check before either
constructs ends with two instances constructed and the two callers observing
different instances — refuting, at this concrete schedule, the claim that
concurrent first-time access constructs exactly one instance observed by
every caller. -/
theorem concurrent_first_access_counterexample :
    (runSchedule raceSchedule initSys).constructed = 2
    ∧ (runSchedule raceSchedule initSys).res1 ≠
      (runSchedule raceSchedule initSys).res2 := by
  decide

/-- C9 as amended: only when the two first-time accesses do not interleave
(one caller completes its check, construct and read before the other starts)
is exactly one instance constructed, with both callers observing that same
single instance; the unguarded check-then-act gives no such guarantee under
interleaving. -/
theorem serialized_first_access_single_construction :
    (runSchedule seqSchedule initSys).constructed = 1
    ∧ (runSchedule seqSchedule initSys).res1 =
      some { cls := ConfigClass.configuration, objId := 1 }
    ∧ (runSchedule seqSchedule initSys).res2 =
      some { cls := ConfigClass.configuration, objId := 1 } := by
  decide

/-- C10: the accessor type check uses instance-of semantics, not exact-type
equality: whenever the stored instance belongs to a class that is an
instance of the requested class — in particular a strict subclass — the call
succeeds and returns the stored instance unchanged. -/
theorem subclass_instance_returned (cls : ConfigClass) (g : Inst) (f : Nat)
    (h : isSubclassOf (Inst.cls g) cls = true) :
    get_global_configuration cls (some g) f = (Except.ok g, some g) := by
  simp [get_global_configuration, h]

/-- Witness for C10: a stored strict-subclass instance (`customA`) requested
as the base class is returned rather than rejected. -/
theorem subclass_instance_returned_witness :
    get_global_configuration ConfigClass.configuration
      (some { cls := ConfigClass.customA, objId := 3 }) 4 =
      (Except.ok { cls := ConfigClass.customA, objId := 3 },
       some { cls := ConfigClass.customA, objId := 3 }) :=
  subclass_instance_returned ConfigClass.configuration
    { cls := ConfigClass.customA, objId := 3 } 4 rfl

end Crawlee
